import Mathlib

/-!
Verification development for the screenMachine window-management subsystem.

Shallow embedding of the Python sources under `src/window_management/`
(`layout_engine.py`, `window_manager.py`, `application_launcher.py`,
`display_manager.py`, `config.py`).  Conventions:

* Python `dict` (which preserves insertion order, replaces the value in
  place on an existing key, and appends new keys at the end) is modelled
  by association lists with `alistInsert` / `alistErase` / `alistLookup`.
* Python machine integers are modelled by `Int` (arbitrary precision in
  Python as well); Python floor division `//` is `Int.fdiv`.
* Python `round` rounds exact halves to the even integer; `py_round_div`
  below reproduces this on the exact rational `x / g` (the float quotient
  in the source is exact at every half-way point reachable here).
* External effects (process spawning, psutil termination, `xrandr`
  invocations) are nondeterministic inputs of the environment; they are
  passed to the embedded operations as explicit outcome parameters.
* Wall-clock timestamps (`created_at`, `last_updated`, `time.sleep`) have
  no observable effect on any of the verified behaviour and are omitted
  from the state.
-/

namespace SM

/-! ### Association lists: the model of Python `dict` -/

def alistLookup {κ α : Type} [DecidableEq κ] (k : κ) : List (κ × α) → Option α
  | [] => none
  | p :: ps => if p.1 = k then some p.2 else alistLookup k ps

/-- `d[k] = v`: replace in place when the key exists, append otherwise. -/
def alistInsert {κ α : Type} [DecidableEq κ] (k : κ) (v : α) : List (κ × α) → List (κ × α)
  | [] => [(k, v)]
  | p :: ps => if p.1 = k then (k, v) :: ps else p :: alistInsert k v ps

/-- `del d[k]`. -/
def alistErase {κ α : Type} [DecidableEq κ] (k : κ) : List (κ × α) → List (κ × α)
  | [] => []
  | p :: ps => if p.1 = k then ps else p :: alistErase k ps

/-- `d[k].field = ...`: update the value at a key in place. -/
def alistModify {κ α : Type} [DecidableEq κ] (k : κ) (f : α → α) (l : List (κ × α)) :
    List (κ × α) :=
  l.map (fun p => if p.1 = k then (p.1, f p.2) else p)

theorem alistLookup_append {κ α : Type} [DecidableEq κ] (k : κ) (l₁ l₂ : List (κ × α)) :
    alistLookup k (l₁ ++ l₂) =
      match alistLookup k l₁ with
      | some v => some v
      | none => alistLookup k l₂ := by
  induction l₁ with
  | nil => simp [alistLookup]
  | cons p ps ih =>
    by_cases h : p.1 = k <;> simp [alistLookup, h, ih]

theorem alistInsert_of_lookup_none {κ α : Type} [DecidableEq κ] (k : κ) (v : α)
    (l : List (κ × α)) (h : alistLookup k l = none) :
    alistInsert k v l = l ++ [(k, v)] := by
  induction l with
  | nil => simp [alistInsert]
  | cons p ps ih =>
    by_cases hp : p.1 = k
    · simp [alistLookup, hp] at h
    · simp [alistLookup, hp] at h
      simp [alistInsert, hp, ih h]

/-! ### Configuration (`config.py`) -/

def DEFAULT_WINDOW_SIZE : Int × Int := (800, 600)
def DEFAULT_WINDOW_POSITION : Int × Int := (0, 0)
def MIN_WINDOW_SIZE : Int × Int := (200, 150)
def MAX_WINDOW_SIZE : Int × Int := (3840, 2160)
def DEFAULT_BROWSER : String := "firefox"

def APPLICATION_PATHS : List (String × String) :=
  [("firefox", "/usr/bin/firefox"),
   ("chromium", "/usr/bin/chromium-browser"),
   ("google-chrome", "/usr/bin/google-chrome-stable"),
   ("libreoffice", "/usr/bin/libreoffice"),
   ("gedit", "/usr/bin/gedit")]

def BROWSER_OPTIONS : List (String × List String) :=
  [("firefox", ["--new-window", "--kiosk"]),
   ("chromium", ["--new-window", "--kiosk"]),
   ("google-chrome", ["--new-window", "--kiosk"])]

/-- `WINDOW_MANAGEMENT['grid_size']`. -/
def grid_size : Int := 50

/-- `WINDOW_MANAGEMENT['window_margin']`. -/
def window_margin : Int := 10

/-- `WINDOW_MANAGEMENT['snap_to_grid']`. -/
def snap_to_grid_enabled : Bool := true

/-- `DISPLAY_VAR` (the `DISPLAY` environment variable, default `":0"`). -/
def DISPLAY_VAR : String := ":0"

/-! ### Window data model (`window_manager.py`) -/

inductive WindowState where
  | normal
  | minimized
  | maximized
  | fullscreen
  | hidden
deriving DecidableEq, Repr

/-- The `Window.metadata` dict: the keys the code reads.  `process_id`,
`url`/`command`, and the custom-layout hints `custom_position` /
`custom_size` used by `_calculate_custom_layout`. -/
structure WinMetadata where
  process_id : Option Nat := none
  url : Option String := none
  command : Option String := none
  custom_position : Option (Int × Int) := none
  custom_size : Option (Int × Int) := none
deriving DecidableEq, Repr

/-- The `Window` dataclass (timestamps omitted, see the header comment). -/
structure Window where
  id : Nat
  title : String
  application : String
  position : Int × Int
  size : Int × Int
  state : WindowState
  display : String
  metadata : WinMetadata
deriving DecidableEq, Repr

/-- A layout: the dict mapping window ids to (position, size). -/
abbrev Layout : Type := List (Nat × ((Int × Int) × (Int × Int)))

/-! ### Layout engine (`layout_engine.py`) -/

/-- `math.ceil(math.sqrt(n))` (the float square root is exact on the
magnitudes involved; modelled by the exact ceiling square root). -/
def gridCols (n : Nat) : Nat :=
  if Nat.sqrt n * Nat.sqrt n = n then Nat.sqrt n else Nat.sqrt n + 1

/-- `math.ceil(num_windows / grid_cols)`. -/
def gridRows (n : Nat) : Nat := (n + gridCols n - 1) / gridCols n

/-- `cell_width = (display_width - (grid_cols + 1) * margin) // grid_cols`
then `max(cell_width, MIN_WINDOW_SIZE[0])`. -/
def grid_cell_w (n : Nat) (W : Int) : Int :=
  max ((W - ((gridCols n : Int) + 1) * window_margin).fdiv (gridCols n : Int))
    MIN_WINDOW_SIZE.1

def grid_cell_h (n : Nat) (H : Int) : Int :=
  max ((H - ((gridRows n : Int) + 1) * window_margin).fdiv (gridRows n : Int))
    MIN_WINDOW_SIZE.2

/-- Position of the `i`-th window in the grid (row-major), clamped:
`x = max(0, min(x, display_width - cell_width))` and likewise for `y`. -/
def grid_pos (n : Nat) (W H : Int) (i : Nat) : Int × Int :=
  let cw := grid_cell_w n W
  let ch := grid_cell_h n H
  let x := window_margin + ((i % gridCols n : Nat) : Int) * (cw + window_margin)
  let y := window_margin + ((i / gridCols n : Nat) : Int) * (ch + window_margin)
  (max 0 (min x (W - cw)), max 0 (min y (H - ch)))

/-- `_calculate_grid_layout`.  The display argument is the
`total_resolution` pair read from `display_info`. -/
def calculate_grid_layout (ws : List Window) (d : Int × Int) : Layout :=
  if ws.isEmpty then []
  else
    let n := ws.length
    ws.enum.foldl
      (fun acc p =>
        alistInsert p.2.id
          (grid_pos n d.1 d.2 p.1, (grid_cell_w n d.1, grid_cell_h n d.2)) acc)
      []

/-- `_calculate_tile_layout`: special cases for 1, 2 and 3 windows,
falling back to the grid layout for more.  Entries are inserted in the
order of the dict literals in the source. -/
def calculate_tile_layout (ws : List Window) (d : Int × Int) : Layout :=
  match ws with
  | [] => []
  | [w0] =>
    alistInsert w0.id ((0, 0), (d.1, d.2)) []
  | [w0, w1] =>
    let half_width := (d.1 - window_margin).fdiv 2
    alistInsert w1.id ((half_width + window_margin, 0), (half_width, d.2))
      (alistInsert w0.id ((0, 0), (half_width, d.2)) [])
  | [w0, w1, w2] =>
    let top_height := d.2.fdiv 2
    let bottom_height := d.2 - top_height - window_margin
    let half_width := (d.1 - window_margin).fdiv 2
    alistInsert w2.id
      ((half_width + window_margin, top_height + window_margin),
        (half_width, bottom_height))
      (alistInsert w1.id
        ((0, top_height + window_margin), (half_width, bottom_height))
        (alistInsert w0.id ((0, 0), (d.1, top_height)) []))
  | _ => calculate_grid_layout ws d

/-- `_calculate_cascade_layout`. -/
def calculate_cascade_layout (ws : List Window) (d : Int × Int) : Layout :=
  if ws.isEmpty then []
  else
    let window_width := max (min 800 (d.1.fdiv 2)) MIN_WINDOW_SIZE.1
    let window_height := max (min 600 (d.2.fdiv 2)) MIN_WINDOW_SIZE.2
    ws.enum.foldl
      (fun acc p =>
        let x := max 0 (min (50 * (p.1 : Int)) (d.1 - window_width))
        let y := max 0 (min (50 * (p.1 : Int)) (d.2 - window_height))
        alistInsert p.2.id ((x, y), (window_width, window_height)) acc)
      []

/-- `_calculate_custom_layout`: per-window metadata overrides, then the
source's clamp sequence (position first with the raw size, then size
with the clamped position). -/
def calculate_custom_layout (ws : List Window) (d : Int × Int) : Layout :=
  if ws.isEmpty then []
  else
    ws.enum.foldl
      (fun acc p =>
        let (x0, y0, w0, h0) :=
          match p.2.metadata.custom_position, p.2.metadata.custom_size with
          | some cp, some cs => (cp.1, cp.2, cs.1, cs.2)
          | _, _ => (100 + (p.1 : Int) * 50, 100 + (p.1 : Int) * 50, 800, 600)
        let x := max 0 (min x0 (d.1 - w0))
        let y := max 0 (min y0 (d.2 - h0))
        let w := max MIN_WINDOW_SIZE.1 (min w0 (d.1 - x))
        let h := max MIN_WINDOW_SIZE.2 (min h0 (d.2 - y))
        alistInsert p.2.id ((x, y), (w, h)) acc)
      []

/-- `calculate_layout`: dispatch on the algorithm name; an unknown name
logs a warning and falls back to the grid layout. -/
def calculate_layout (ws : List Window) (d : Int × Int) (algorithm : String) : Layout :=
  if algorithm = "grid" then calculate_grid_layout ws d
  else if algorithm = "tile" then calculate_tile_layout ws d
  else if algorithm = "cascade" then calculate_cascade_layout ws d
  else if algorithm = "custom" then calculate_custom_layout ws d
  else calculate_grid_layout ws d

/-- `_is_valid_position`. -/
def is_valid_position (pos size d : Int × Int) : Bool :=
  !(pos.1 < 0) && !(pos.2 < 0) && !(pos.1 + size.1 > d.1) && !(pos.2 + size.2 > d.2) &&
    !(size.1 < MIN_WINDOW_SIZE.1) && !(size.2 < MIN_WINDOW_SIZE.2)

/-- The `constraints` dict: the source also reads `min_spacing` but
never uses it, so only `preferred_positions` is observable. -/
structure Constraints where
  preferred_positions : List (Nat × ((Int × Int) × (Int × Int)))
deriving DecidableEq, Repr

/-- `_apply_constraints`: replace an entry by its preferred geometry when
that geometry validates against the display bounds and minimum size. -/
def apply_constraints (layout : Layout) (constraints : Constraints) (d : Int × Int) :
    Layout :=
  layout.map
    (fun e =>
      match alistLookup e.1 constraints.preferred_positions with
      | some (pp, ps) => if is_valid_position pp ps d then (e.1, (pp, ps)) else e
      | none => e)

/-- Python `round(x / g) * g` for integer `x` and positive integer `g`:
round half to even on the exact quotient, then scale back. -/
def py_round_div (x g : Int) : Int :=
  let q := x.fdiv g
  let r := x - q * g
  if 2 * r < g then q
  else if g < 2 * r then q + 1
  else if q % 2 = 0 then q else q + 1

/-- `_snap_to_grid`. -/
def snap_to_grid (layout : Layout) : Layout :=
  layout.map
    (fun e =>
      ((e.1 : Nat),
        ((py_round_div e.2.1.1 grid_size * grid_size,
          py_round_div e.2.1.2 grid_size * grid_size),
         e.2.2)))

/-- The layout `optimize_layout` has built just before the snap step:
the grid layout with constraints applied (named here so theorems can
refer to the pre-snap positions). -/
def pre_snap_layout (ws : List Window) (d : Int × Int)
    (constraints : Option Constraints) : Layout :=
  let layout := calculate_grid_layout ws d
  match constraints with
  | some c => apply_constraints layout c d
  | none => layout

/-- `optimize_layout`: grid layout, constraints, then the snap step when
`WINDOW_MANAGEMENT['snap_to_grid']` is set. -/
def optimize_layout (ws : List Window) (d : Int × Int)
    (constraints : Option Constraints) : Layout :=
  let layout := pre_snap_layout ws d constraints
  if snap_to_grid_enabled then snap_to_grid layout else layout

/-! ### Display manager (`display_manager.py`) -/

/-- The `Display` dataclass.  `refresh_rate` is the float `60.0` in the
source; it is only ever set to this constant, modelled as a natural. -/
structure Display where
  name : String
  id : String
  resolution : Int × Int
  refresh_rate : Nat
  is_primary : Bool
  is_active : Bool
  hdmi_port : Option String
deriving DecidableEq, Repr

/-- DisplayManager state: the ordered dict of displays and the primary
display name. -/
structure DMState where
  displays : List (String × Display)
  primary_display : Option String
deriving DecidableEq, Repr

/-- Outcome of running `xrandr --query`: it may produce output, exit
non-zero (`subprocess.CalledProcessError`), or not exist on the system
(`FileNotFoundError`). -/
inductive XrandrResult where
  | ok (stdout : String)
  | calledProcessError
  | fileNotFound
deriving DecidableEq, Repr

/-- Contiguous-sublist test on character lists. -/
def charsInfixOf (needle : List Char) : List Char → Bool
  | [] => needle.isEmpty
  | c :: t => needle.isPrefixOf (c :: t) || charsInfixOf needle t

/-- Python substring test `needle in hay`. -/
def strContains (hay needle : String) : Bool :=
  charsInfixOf needle.data hay.data

/-- Python `str.split()` with no argument: split on whitespace runs,
dropping empty fields. -/
def pySplitWs (s : String) : List String :=
  (s.split Char.isWhitespace).filter (fun t => t ≠ "")

/-- `part.replace('x', '').replace('.', '').isdigit()`. -/
def resTokenDigits (part : String) : Bool :=
  let stripped := part.data.filter (fun c => !(c = 'x') && !(c = '.'))
  !stripped.isEmpty && stripped.all Char.isDigit

/-- `width, height = part.split('x'); (int(width), int(height))`, with
the `ValueError` paths (wrong arity, non-numeric half) yielding `none`. -/
def parseResToken (part : String) : Option (Int × Int) :=
  match part.splitOn "x" with
  | [a, b] =>
    match a.toNat?, b.toNat? with
    | some w, some h => some ((w : Int), (h : Int))
    | _, _ => none
  | _ => none

/-- `_get_hdmi_port`. -/
def get_hdmi_port (display_name : String) : Option String :=
  if strContains display_name.toUpper "HDMI" then some "hdmi1"
  else if strContains display_name.toUpper "DP" then some "displayport1"
  else none

/-- One iteration of the `for line in lines` loop of
`_parse_xrandr_output`; the accumulator carries `current_display`. -/
def parse_xrandr_line (acc : DMState × Option String) (line : String) :
    DMState × Option String :=
  let (dm, current) := acc
  if strContains line " connected " then
    let parts := pySplitWs line
    let name := parts.headD ""
    let is_primary := strContains line "primary"
    let resolution :=
      (parts.foldl
        (fun r part =>
          if part.contains 'x' && resTokenDigits part then
            match parseResToken part with
            | some r2 => some r2
            | none => r
          else r)
        none).getD (1920, 1080)
    let disp : Display :=
      { name := name, id := name, resolution := resolution, refresh_rate := 60,
        is_primary := is_primary, is_active := true,
        hdmi_port := get_hdmi_port name }
    ({ displays := alistInsert name disp dm.displays,
       primary_display := if is_primary then some name else dm.primary_display },
     some name)
  else
    match current with
    | some cd =>
      if line.contains 'x' && line.contains 'y' then
        match pySplitWs line.trim with
        | [] => (dm, current)
        | res_part :: _ =>
          if res_part.contains 'x' then
            match parseResToken res_part with
            | some r =>
              ({ dm with
                  displays :=
                    alistModify cd (fun disp => { disp with resolution := r })
                      dm.displays },
               current)
            | none => (dm, current)
          else (dm, current)
      else (dm, current)
    | none => (dm, current)

/-- `_parse_xrandr_output`. -/
def parse_xrandr_output (dm : DMState) (output : String) : DMState :=
  ((output.trim.splitOn "\n").foldl parse_xrandr_line (dm, none)).1

/-- The synthetic display built by `_fallback_display_detection`. -/
def fallback_display : Display :=
  { name := ":0.0", id := ":0.0", resolution := (1920, 1080), refresh_rate := 60,
    is_primary := true, is_active := true, hdmi_port := some "hdmi1" }

/-- `_fallback_display_detection`: inserts the synthetic display and
marks it primary (it does not clear pre-existing entries). -/
def fallback_display_detection (dm : DMState) : DMState :=
  { displays := alistInsert ":0.0" fallback_display dm.displays,
    primary_display := some ":0.0" }

/-- `_refresh_displays`: parse on success; a `CalledProcessError` is only
logged (no state change); a `FileNotFoundError` triggers the fallback. -/
def refresh_displays (dm : DMState) (q : XrandrResult) : DMState :=
  match q with
  | .ok out => parse_xrandr_output dm out
  | .calledProcessError => dm
  | .fileNotFound => fallback_display_detection dm

/-- `DisplayManager.__init__`: start empty and refresh once. -/
def initDisplayManager (q : XrandrResult) : DMState :=
  refresh_displays { displays := [], primary_display := none } q

/-- `_calculate_total_resolution`. -/
def calculate_total_resolution (dm : DMState) : Int × Int :=
  if dm.displays.isEmpty then (0, 0)
  else
    match dm.primary_display with
    | some p =>
      match alistLookup p dm.displays with
      | some disp => disp.resolution
      | none => (1920, 1080)
    | none => (1920, 1080)

/-- An OS display command issued through `subprocess.run`. -/
inductive OsCommand where
  | xrandrSetMode (output : String) (w h : Int)
deriving DecidableEq, Repr

/-- `set_display_resolution`.  `cmdOk` is the environment's verdict on
the `xrandr --output ... --mode ...` call (`returncode == 0`).  The
result is `(success, new state, commands issued)`. -/
def set_display_resolution (dm : DMState) (display_name : String)
    (resolution : Int × Int) (cmdOk : Bool) : Bool × DMState × List OsCommand :=
  match alistLookup display_name dm.displays with
  | none => (false, dm, [])
  | some _ =>
    if resolution.1 < 800 || resolution.2 < 600 then (false, dm, [])
    else
      let cmd := OsCommand.xrandrSetMode display_name resolution.1 resolution.2
      if cmdOk then
        (true,
         { dm with
             displays :=
               alistModify display_name (fun disp => { disp with resolution := resolution })
                 dm.displays },
         [cmd])
      else (false, dm, [cmd])

/-! ### Application launcher (`application_launcher.py`) -/

/-- The `ProcessInfo` dataclass (creation timestamp omitted; the
`metadata` dict holds `type` and, for browsers, `url`). -/
structure ProcessInfo where
  pid : Nat
  name : String
  command : String
  args : List String
  status : String
  mtype : String
  url : Option String
deriving DecidableEq, Repr

/-- ApplicationLauncher state. -/
structure ALState where
  processes : List (Nat × ProcessInfo)
  process_counter : Nat
deriving DecidableEq, Repr

def initApplicationLauncher : ALState := { processes := [], process_counter := 0 }

/-- How the environment resolves a `terminate_process` attempt on a
tracked pid: the process exits within the 5-second grace period, has to
be force-killed, is already gone (`psutil.NoSuchProcess`), or the psutil
call raises some other, unexpected exception. -/
inductive TermOutcome where
  | graceful
  | forced
  | alreadyGone
  | unexpectedError
deriving DecidableEq, Repr

/-- `launch_browser`.  `pid` is the pid the OS gives the spawned child;
`pathExists` is `os.path.exists(browser_path)`; `spawnOk` is whether
`subprocess.Popen` itself succeeds.  Errors re-raise to the caller. -/
def launch_browser (l : ALState) (browser url : String) (args : List String)
    (pid : Nat) (pathExists spawnOk : Bool) : Except String (Nat × ALState) :=
  match alistLookup browser APPLICATION_PATHS with
  | none => .error ("Unsupported browser: " ++ browser)
  | some path =>
    let browser_path := if pathExists then path else browser
    if !spawnOk then .error "spawn failed"
    else
      let cmd :=
        [browser_path] ++ ((alistLookup browser BROWSER_OPTIONS).getD []) ++ args ++ [url]
      let info : ProcessInfo :=
        { pid := pid, name := browser, command := browser_path, args := cmd.drop 1,
          status := "running", mtype := "browser", url := some url }
      .ok (pid,
        { processes := alistInsert pid info l.processes,
          process_counter := l.process_counter + 1 })

/-- `launch_application`. -/
def launch_application (l : ALState) (command : String) (args : List String)
    (pid : Nat) (spawnOk : Bool) : Except String (Nat × ALState) :=
  if !spawnOk then .error "spawn failed"
  else
    let info : ProcessInfo :=
      { pid := pid, name := command, command := command, args := args,
        status := "running", mtype := "application", url := none }
    .ok (pid,
      { processes := alistInsert pid info l.processes,
        process_counter := l.process_counter + 1 })

/-- `terminate_process`: an untracked pid returns `False` untouched; a
tracked pid is removed and `True` returned on the graceful, forced and
already-gone paths; an unexpected psutil exception reaches the outer
handler before the `del`, returning `False` with the pid still
tracked. -/
def terminate_process (l : ALState) (pid : Nat) (env : TermOutcome) : Bool × ALState :=
  if (alistLookup pid l.processes).isNone then (false, l)
  else
    match env with
    | .unexpectedError => (false, l)
    | _ => (true, { l with processes := alistErase pid l.processes })

/-! ### Window manager (`window_manager.py`) -/

/-- WindowManager state.  `auto_arrange` is stored by `__init__` but
never read back by any operation. -/
structure WMState where
  displayMgr : DMState
  launcher : ALState
  windows : List (Nat × Window)
  auto_arrange : Bool
  window_counter : Nat
deriving DecidableEq, Repr

/-- `WindowManager.__init__` (the constructor builds a DisplayManager,
whose own constructor performs the first display refresh). -/
def initWindowManager (q : XrandrResult) : WMState :=
  { displayMgr := initDisplayManager q,
    launcher := initApplicationLauncher,
    windows := [],
    auto_arrange := true,
    window_counter := 0 }

/-- `_set_window_geometry`: the X11 call is stubbed in the source; it
only updates the tracked position and size. -/
def set_window_geometry (st : WMState) (window_id : Nat) (pos size : Int × Int) :
    WMState :=
  match alistLookup window_id st.windows with
  | none => st
  | some w =>
    { st with
        windows :=
          alistInsert window_id { w with position := pos, size := size } st.windows }

/-- `create_browser_window`.  Defaults are filled from the
configuration; the browser is launched (exceptions re-raise), the window
is stored under the current counter, the counter incremented, and the
requested geometry pushed through `_set_window_geometry`.  The window
title comes from the `_get_window_info` stub. -/
def create_browser_window (st : WMState) (url : String)
    (position size : Option (Int × Int)) (browser : Option String)
    (pid : Nat) (pathExists spawnOk : Bool) : Except String (Window × WMState) :=
  let position := position.getD DEFAULT_WINDOW_POSITION
  let size := size.getD DEFAULT_WINDOW_SIZE
  let browser := browser.getD DEFAULT_BROWSER
  match launch_browser st.launcher browser url [] pid pathExists spawnOk with
  | .error e => .error e
  | .ok (p, launcher') =>
    let w : Window :=
      { id := st.window_counter,
        title := "Process " ++ toString p,
        application := browser,
        position := position, size := size,
        state := .normal, display := DISPLAY_VAR,
        metadata := { process_id := some p, url := some url } }
    let st' : WMState :=
      { st with
          launcher := launcher',
          windows := alistInsert st.window_counter w st.windows,
          window_counter := st.window_counter + 1 }
    .ok (w, set_window_geometry st' w.id position size)

/-- `create_application_window`. -/
def create_application_window (st : WMState) (command : String)
    (position size : Option (Int × Int)) (args : List String)
    (pid : Nat) (spawnOk : Bool) : Except String (Window × WMState) :=
  let position := position.getD DEFAULT_WINDOW_POSITION
  let size := size.getD DEFAULT_WINDOW_SIZE
  match launch_application st.launcher command args pid spawnOk with
  | .error e => .error e
  | .ok (p, launcher') =>
    let w : Window :=
      { id := st.window_counter,
        title := "Process " ++ toString p,
        application := command,
        position := position, size := size,
        state := .normal, display := DISPLAY_VAR,
        metadata := { process_id := some p, command := some command } }
    let st' : WMState :=
      { st with
          launcher := launcher',
          windows := alistInsert st.window_counter w st.windows,
          window_counter := st.window_counter + 1 }
    .ok (w, set_window_geometry st' w.id position size)

/-- `close_window`: unknown id returns `False`; otherwise the tracked
process (if any) is terminated — its result is ignored — and the window
is removed. -/
def close_window (st : WMState) (window_id : Nat) (env : TermOutcome) :
    Bool × WMState :=
  match alistLookup window_id st.windows with
  | none => (false, st)
  | some w =>
    let launcher' :=
      match w.metadata.process_id with
      | some p => (terminate_process st.launcher p env).2
      | none => st.launcher
    (true,
      { st with launcher := launcher', windows := alistErase window_id st.windows })

/-- `set_window_position`. -/
def set_window_position (st : WMState) (window_id : Nat) (pos : Int × Int) :
    Bool × WMState :=
  match alistLookup window_id st.windows with
  | none => (false, st)
  | some w =>
    let st' :=
      { st with windows := alistInsert window_id { w with position := pos } st.windows }
    (true, set_window_geometry st' window_id pos w.size)

/-- `set_window_size`: below-minimum requests are replaced wholesale by
`MIN_WINDOW_SIZE`, then above-maximum ones by `MAX_WINDOW_SIZE`. -/
def set_window_size (st : WMState) (window_id : Nat) (size : Int × Int) :
    Bool × WMState :=
  match alistLookup window_id st.windows with
  | none => (false, st)
  | some w =>
    let size :=
      if size.1 < MIN_WINDOW_SIZE.1 || size.2 < MIN_WINDOW_SIZE.2 then MIN_WINDOW_SIZE
      else size
    let size :=
      if size.1 > MAX_WINDOW_SIZE.1 || size.2 > MAX_WINDOW_SIZE.2 then MAX_WINDOW_SIZE
      else size
    let st' :=
      { st with windows := alistInsert window_id { w with size := size } st.windows }
    (true, set_window_geometry st' window_id w.position size)

/-- `_set_window_state` (shared by minimize / maximize / restore). -/
def set_window_state (st : WMState) (window_id : Nat) (s : WindowState) :
    Bool × WMState :=
  match alistLookup window_id st.windows with
  | none => (false, st)
  | some w =>
    (true, { st with windows := alistInsert window_id { w with state := s } st.windows })

/-- `arrange_windows`: no-op success with no windows; otherwise compute
the layout over the current windows (in insertion order) against the
display info and push each entry through `set_window_position` and
`set_window_size`. -/
def arrange_windows (st : WMState) (algorithm : String) : Bool × WMState :=
  if st.windows.isEmpty then (true, st)
  else
    let display_info := calculate_total_resolution st.displayMgr
    let layout := calculate_layout (st.windows.map Prod.snd) display_info algorithm
    let st' :=
      layout.foldl
        (fun s e =>
          if (alistLookup e.1 s.windows).isSome then
            let s1 := (set_window_position s e.1 e.2.1).2
            (set_window_size s1 e.1 e.2.2).2
          else s)
        st
    (true, st')

/-! ### Operation traces over the Window Registry

One session of registry operations: each constructor carries the
environment inputs (pids handed out by the OS, termination outcomes,
spawn successes) alongside the caller-supplied arguments. -/

inductive Op where
  | createBrowser (url : String) (position size : Option (Int × Int))
      (browser : Option String) (pid : Nat) (pathExists spawnOk : Bool)
  | createApp (command : String) (position size : Option (Int × Int))
      (args : List String) (pid : Nat) (spawnOk : Bool)
  | closeWin (id : Nat) (env : TermOutcome)
  | setPos (id : Nat) (p : Int × Int)
  | setSize (id : Nat) (s : Int × Int)
  | setWinState (id : Nat) (s : WindowState)
  | arrange (algorithm : String)
deriving DecidableEq, Repr

/-- Apply one registry operation; a create whose launch raises leaves
the state untouched (the exception is thrown before any mutation). -/
def applyOp (st : WMState) : Op → WMState
  | .createBrowser url pos size browser pid pe ok =>
    match create_browser_window st url pos size browser pid pe ok with
    | .ok (_, st') => st'
    | .error _ => st
  | .createApp command pos size args pid ok =>
    match create_application_window st command pos size args pid ok with
    | .ok (_, st') => st'
    | .error _ => st
  | .closeWin id env => (close_window st id env).2
  | .setPos id p => (set_window_position st id p).2
  | .setSize id s => (set_window_size st id s).2
  | .setWinState id s => (set_window_state st id s).2
  | .arrange algorithm => (arrange_windows st algorithm).2

def applyOps (st : WMState) : List Op → WMState
  | [] => st
  | op :: ops => applyOps (applyOp st op) ops

/-- The window ids an operation assigns (the id of a successfully
created window; every other operation assigns none). -/
def assignedByOp (st : WMState) : Op → List Nat
  | .createBrowser url pos size browser pid pe ok =>
    match create_browser_window st url pos size browser pid pe ok with
    | .ok _ => [st.window_counter]
    | .error _ => []
  | .createApp command pos size args pid ok =>
    match create_application_window st command pos size args pid ok with
    | .ok _ => [st.window_counter]
    | .error _ => []
  | _ => []

/-- All ids assigned along a run of operations, in order. -/
def assignedIds (st : WMState) : List Op → List Nat
  | [] => []
  | op :: ops => assignedByOp st op ++ assignedIds (applyOp st op) ops

/-! ### Generic lemmas about the dict model -/

theorem foldl_alistInsert_of_nodup {κ β γ : Type} [DecidableEq κ]
    (f : γ → κ) (g : γ → β) :
    ∀ (l : List γ) (acc : List (κ × β)),
      (l.map f).Nodup → (∀ x ∈ l, alistLookup (f x) acc = none) →
      l.foldl (fun a x => alistInsert (f x) (g x) a) acc =
        acc ++ l.map (fun x => (f x, g x)) := by
  intro l
  induction l with
  | nil => intro acc _ _; simp
  | cons x xs ih =>
    intro acc hnd hnone
    rw [List.map_cons, List.nodup_cons] at hnd
    obtain ⟨hxmem, hnd'⟩ := hnd
    have hx : alistLookup (f x) acc = none := hnone x (by simp)
    have hstep :
        ∀ y ∈ xs, alistLookup (f y) (acc ++ [(f x, g x)]) = none := by
      intro y hy
      rw [alistLookup_append]
      have h1 : alistLookup (f y) acc = none := hnone y (by simp [hy])
      have hne : ¬(f x = f y) := by
        intro h
        exact hxmem (h ▸ List.mem_map_of_mem f hy)
      simp [h1, alistLookup, hne]
    calc (x :: xs).foldl (fun a y => alistInsert (f y) (g y) a) acc
        = xs.foldl (fun a y => alistInsert (f y) (g y) a) (acc ++ [(f x, g x)]) := by
          simp [List.foldl_cons, alistInsert_of_lookup_none _ _ _ hx]
      _ = (acc ++ [(f x, g x)]) ++ xs.map (fun y => (f y, g y)) := ih _ hnd' hstep
      _ = acc ++ (x :: xs).map (fun y => (f y, g y)) := by simp

/-- The grid layout as a plain map over the enumerated window list, valid
when the window ids are pairwise distinct. -/
theorem calculate_grid_layout_eq_map (ws : List Window) (W H : Int)
    (hnd : (ws.map Window.id).Nodup) :
    calculate_grid_layout ws (W, H) =
      ws.enum.map
        (fun p =>
          (p.2.id,
            (grid_pos ws.length W H p.1,
              (grid_cell_w ws.length W, grid_cell_h ws.length H)))) := by
  rcases ws with _ | ⟨w, ws'⟩
  · simp [calculate_grid_layout]
  · have hk : (((w :: ws').enum).map (fun p => p.2.id)).Nodup := by
      rw [show (fun p : Nat × Window => p.2.id) = Window.id ∘ Prod.snd from rfl,
        ← List.map_map, List.enum_map_snd]
      exact hnd
    have h := foldl_alistInsert_of_nodup (fun p : Nat × Window => p.2.id)
      (fun p : Nat × Window =>
        (grid_pos (w :: ws').length W H p.1,
          (grid_cell_w (w :: ws').length W, grid_cell_h (w :: ws').length H)))
      (w :: ws').enum [] hk (by intro x _; simp [alistLookup])
    simp only [calculate_grid_layout, List.isEmpty_cons, Bool.false_eq_true, if_false]
    exact h.trans (by simp)

/-! ### Shared concrete objects for witnesses and counterexamples -/

/-- A concrete logical window with a given id. -/
def demoWindow (i : Nat) : Window :=
  { id := i, title := "demo", application := "firefox", position := (0, 0),
    size := (800, 600), state := .normal, display := ":0", metadata := {} }

theorem grid_cell_w_ge_min (n : Nat) (W : Int) :
    MIN_WINDOW_SIZE.1 ≤ grid_cell_w n W := le_max_right _ _

theorem grid_cell_h_ge_min (n : Nat) (H : Int) :
    MIN_WINDOW_SIZE.2 ≤ grid_cell_h n H := le_max_right _ _

theorem clamp_nonneg (x hi : Int) : 0 ≤ max 0 (min x hi) := le_max_left _ _

theorem clamp_le (x hi : Int) : max 0 (min x hi) ≤ max 0 hi := by omega

/-- C1 (amended): for every non-empty window list with pairwise-distinct
ids and every display area, the grid layout has exactly one entry per
window, each size is componentwise at least `MIN_WINDOW_SIZE`, and each
position lies within `[0, max 0 (displayDim - size)]` on both axes (the
upper bound collapses to `0` when the clamped cell no longer fits the
display, which is where the unamended interval `[0, displayDim - size]`
fails). -/
theorem C1_grid_layout_count_and_bounds (ws : List Window) (W H : Int)
    (hne : ws ≠ []) (hnd : (ws.map Window.id).Nodup) :
    (calculate_grid_layout ws (W, H)).length = ws.length ∧
    ∀ e ∈ calculate_grid_layout ws (W, H),
      MIN_WINDOW_SIZE.1 ≤ e.2.2.1 ∧ MIN_WINDOW_SIZE.2 ≤ e.2.2.2 ∧
      0 ≤ e.2.1.1 ∧ e.2.1.1 ≤ max 0 (W - e.2.2.1) ∧
      0 ≤ e.2.1.2 ∧ e.2.1.2 ≤ max 0 (H - e.2.2.2) := by
  have _ := hne
  rw [calculate_grid_layout_eq_map ws W H hnd]
  refine ⟨by simp, ?_⟩
  intro e he
  obtain ⟨p, hp, rfl⟩ := List.mem_map.mp he
  refine ⟨grid_cell_w_ge_min _ _, grid_cell_h_ge_min _ _, ?_, ?_, ?_, ?_⟩ <;>
    simp only [grid_pos]
  · exact clamp_nonneg _ _
  · exact clamp_le _ _
  · exact clamp_nonneg _ _
  · exact clamp_le _ _

/-- C1 counterexample to the claim as stated: a single window on a
100×100 display.  The clamped minimum cell size is 200×150, the clamped
position is (0, 0), and 0 does not lie in `[0, 100 - 200]`, which is
empty. -/
theorem C1_counterexample :
    calculate_grid_layout [demoWindow 0] (100, 100) = [(0, ((0, 0), (200, 150)))] ∧
    ¬((0 : Int) ≤ 100 - 200) := by
  constructor
  · decide
  · decide

/-- C1 witness: the amended theorem applied to one window on a
1920×1080 display. -/
theorem C1_witness :
    ([demoWindow 0] ≠ ([] : List Window)) ∧
    (([demoWindow 0].map Window.id).Nodup) ∧
    ((calculate_grid_layout [demoWindow 0] (1920, 1080)).length =
        [demoWindow 0].length ∧
      ∀ e ∈ calculate_grid_layout [demoWindow 0] (1920, 1080),
        MIN_WINDOW_SIZE.1 ≤ e.2.2.1 ∧ MIN_WINDOW_SIZE.2 ≤ e.2.2.2 ∧
        0 ≤ e.2.1.1 ∧ e.2.1.1 ≤ max 0 (1920 - e.2.2.1) ∧
        0 ≤ e.2.1.2 ∧ e.2.1.2 ≤ max 0 (1080 - e.2.2.2)) :=
  ⟨by decide, by decide,
    C1_grid_layout_count_and_bounds [demoWindow 0] 1920 1080 (by decide) (by decide)⟩

theorem alistLookup_insert_self {κ α : Type} [DecidableEq κ] (k : κ) (v : α)
    (l : List (κ × α)) : alistLookup k (alistInsert k v l) = some v := by
  induction l with
  | nil => simp [alistInsert, alistLookup]
  | cons p ps ih => by_cases h : p.1 = k <;> simp [alistInsert, alistLookup, h, ih]

/-! ### C2 -/

/-- C2 (amended): creating a browser window on a fresh Window Manager
and immediately closing it returns success and leaves the window
collection empty; provided the process-termination call does not fail
unexpectedly, the spawned pid is also gone from the supervisor's
collection. -/
theorem C2_create_close_roundtrip (url : String) (pid : Nat) (q : XrandrResult)
    (env : TermOutcome) (henv : env ≠ TermOutcome.unexpectedError) :
    ∃ w s1,
      create_browser_window (initWindowManager q) url none none none pid true true =
        .ok (w, s1) ∧
      (close_window s1 w.id env).1 = true ∧
      (close_window s1 w.id env).2.windows = [] ∧
      alistLookup pid (close_window s1 w.id env).2.launcher.processes = none := by
  refine ⟨_, _, rfl, ?_, ?_, ?_⟩ <;>
    cases env <;>
      first
      | exact absurd rfl henv
      | simp [close_window, terminate_process, create_browser_window, launch_browser,
          initWindowManager, initApplicationLauncher, set_window_geometry,
          alistLookup, alistInsert, alistErase, APPLICATION_PATHS, BROWSER_OPTIONS,
          DEFAULT_BROWSER]

/-- C2 witness: a concrete url and pid with a graceful termination. -/
theorem C2_witness :
    TermOutcome.graceful ≠ TermOutcome.unexpectedError ∧
    (∃ w s1,
      create_browser_window (initWindowManager .fileNotFound) "http://example.com"
          none none none 100 true true = .ok (w, s1) ∧
      (close_window s1 w.id .graceful).1 = true ∧
      (close_window s1 w.id .graceful).2.windows = [] ∧
      alistLookup 100 (close_window s1 w.id .graceful).2.launcher.processes = none) :=
  ⟨by decide,
    C2_create_close_roundtrip "http://example.com" 100 .fileNotFound .graceful (by decide)⟩

/-- C2 counterexample to the claim as stated: when the termination call
fails unexpectedly, `close_window` still succeeds and empties the
window collection, but the spawned pid 100 is left in the supervisor's
process collection, so the claim's final conjunct fails. -/
theorem C2_counterexample :
    ∃ w s1,
      create_browser_window (initWindowManager .fileNotFound) "http://example.com"
          none none none 100 true true = .ok (w, s1) ∧
      (close_window s1 w.id .unexpectedError).1 = true ∧
      (close_window s1 w.id .unexpectedError).2.windows = [] ∧
      alistLookup 100
          (close_window s1 w.id .unexpectedError).2.launcher.processes ≠ none := by
  refine ⟨_, _, rfl, by decide, by decide, by decide⟩

/-! ### C3 -/

/-- C3 counterexample to the claim as stated: when the display query
runs but fails (`subprocess.CalledProcessError`), `_refresh_displays`
only logs the error — no fallback display is installed.  Starting from
an empty registry the collection stays empty rather than becoming the
single synthetic 1920×1080 display. -/
theorem C3_counterexample :
    (refresh_displays { displays := [], primary_display := none }
        XrandrResult.calledProcessError).displays = [] ∧
    (refresh_displays { displays := [], primary_display := none }
        XrandrResult.calledProcessError).displays ≠ [(":0.0", fallback_display)] := by
  constructor
  · rfl
  · decide

/-- C3 (amended): only when the query mechanism cannot be run at all
(`FileNotFoundError`, i.e. `xrandr` missing) does the fallback fire; in
that case, starting from an empty display collection (as at
initialization), the collection afterwards consists of exactly the
single synthetic display — 1920×1080, primary and active. -/
theorem C3_fallback_single_display (dm : DMState) (h : dm.displays = []) :
    (refresh_displays dm XrandrResult.fileNotFound).displays =
      [(":0.0", fallback_display)] ∧
    (refresh_displays dm XrandrResult.fileNotFound).primary_display = some ":0.0" ∧
    fallback_display.resolution = (1920, 1080) ∧
    fallback_display.is_primary = true ∧
    fallback_display.is_active = true := by
  simp [refresh_displays, fallback_display_detection, h, alistInsert,
    fallback_display]

/-- C3 witness: the empty display manager state. -/
theorem C3_witness :
    ({ displays := [], primary_display := none } : DMState).displays = [] ∧
    ((refresh_displays { displays := [], primary_display := none }
        XrandrResult.fileNotFound).displays = [(":0.0", fallback_display)] ∧
      (refresh_displays { displays := [], primary_display := none }
          XrandrResult.fileNotFound).primary_display = some ":0.0" ∧
      fallback_display.resolution = (1920, 1080) ∧
      fallback_display.is_primary = true ∧
      fallback_display.is_active = true) :=
  ⟨rfl, C3_fallback_single_display { displays := [], primary_display := none } rfl⟩

/-! ### C5 -/

/-- C5 (amended): the tile layout for a single window returns exactly
one entry, at position (0, 0) with size equal to the full display
dimensions — the window margin is not applied in the n = 1 case. -/
theorem C5_tile_single_window (w : Window) (W H : Int) :
    calculate_tile_layout [w] (W, H) = [(w.id, ((0, 0), (W, H)))] := by
  simp [calculate_tile_layout, alistInsert]

/-- C5 counterexample to the claim as stated: on a 1920×1080 display the
single tile entry spans the full 1920×1080 at (0, 0), while the
configured margin is 10, so the produced size is neither the display
minus one margin nor minus a margin on each side. -/
theorem C5_counterexample :
    calculate_tile_layout [demoWindow 0] (1920, 1080) =
      [(0, ((0, 0), (1920, 1080)))] ∧
    window_margin = 10 ∧
    ¬((1920 : Int) = 1920 - window_margin) ∧
    ¬((1920 : Int) = 1920 - 2 * window_margin) ∧
    ¬((1080 : Int) = 1080 - 2 * window_margin) := by
  refine ⟨by decide, by decide, by decide, by decide, by decide⟩

/-! ### C7 -/

/-- C7 (amended): complete characterization of `terminate_process`.  A
tracked pid is removed from the collection and `True` returned whether
termination was graceful, forced, or the process was already gone; the
call returns `False` and leaves the collection unchanged exactly when
the pid is not tracked or the termination call fails unexpectedly. -/
theorem C7_terminate_process_characterization (l : ALState) (pid : Nat)
    (env : TermOutcome) :
    terminate_process l pid env =
      if (alistLookup pid l.processes).isSome ∧ env ≠ TermOutcome.unexpectedError then
        (true, { l with processes := alistErase pid l.processes })
      else (false, l) := by
  unfold terminate_process
  rcases h : alistLookup pid l.processes with _ | v <;> cases env <;> simp [h]

/-- C7 counterexample to the claim as stated, at two concrete inputs:
terminating an untracked pid (5, on an empty supervisor) returns
`False` although nothing failed unexpectedly; and when the termination
call for a tracked pid (100) does fail unexpectedly, the pid is not
removed from the collection. -/
theorem C7_counterexample :
    (terminate_process initApplicationLauncher 5 TermOutcome.graceful).1 = false ∧
    TermOutcome.graceful ≠ TermOutcome.unexpectedError ∧
    (alistLookup 100
        ((terminate_process
            { processes :=
                [(100,
                  { pid := 100, name := "firefox", command := "/usr/bin/firefox",
                    args := [], status := "running", mtype := "browser",
                    url := none })],
              process_counter := 1 }
            100 TermOutcome.unexpectedError).2).processes).isSome := by
  refine ⟨by decide, by decide, by decide⟩

/-! ### C9 -/

/-- C9 (confirmed): for an existing window, a `set_window_size` request
with either dimension strictly below the configured minimum stores
exactly `MIN_WINDOW_SIZE` in both components — the whole requested pair
is replaced, not clamped componentwise — and the maximum clamp does not
alter this, since the minimum is within the maximum. -/
theorem C9_set_window_size_min_replaces (st : WMState) (window_id : Nat)
    (w : Window) (size : Int × Int)
    (hw : alistLookup window_id st.windows = some w)
    (hsmall : size.1 < MIN_WINDOW_SIZE.1 ∨ size.2 < MIN_WINDOW_SIZE.2) :
    (set_window_size st window_id size).1 = true ∧
    alistLookup window_id (set_window_size st window_id size).2.windows =
      some { w with size := MIN_WINDOW_SIZE } := by
  have h1 : (size.1 < MIN_WINDOW_SIZE.1 || size.2 < MIN_WINDOW_SIZE.2) = true := by
    rcases hsmall with h | h <;> simp [h]
  have h2 : (MIN_WINDOW_SIZE.1 > MAX_WINDOW_SIZE.1 ||
      MIN_WINDOW_SIZE.2 > MAX_WINDOW_SIZE.2) = false := by decide
  simp only [set_window_size, hw, h1, if_true, h2, if_false,
    set_window_geometry, alistLookup_insert_self]
  exact ⟨trivial, rfl⟩

/-- A concrete manager state holding one window with id 0. -/
def demoWMState : WMState :=
  { displayMgr := initDisplayManager .fileNotFound,
    launcher := initApplicationLauncher,
    windows := [(0, demoWindow 0)],
    auto_arrange := true,
    window_counter := 1 }

/-- C9 witness: requesting (100, 5000) — width below the minimum, height
above the maximum — stores exactly (200, 150). -/
theorem C9_witness :
    alistLookup 0 demoWMState.windows = some (demoWindow 0) ∧
    (((100 : Int), (5000 : Int)).1 < MIN_WINDOW_SIZE.1 ∨
      ((100 : Int), (5000 : Int)).2 < MIN_WINDOW_SIZE.2) ∧
    ((set_window_size demoWMState 0 (100, 5000)).1 = true ∧
      alistLookup 0 (set_window_size demoWMState 0 (100, 5000)).2.windows =
        some { demoWindow 0 with size := MIN_WINDOW_SIZE }) :=
  ⟨by decide, by decide,
    C9_set_window_size_min_replaces demoWMState 0 (demoWindow 0) (100, 5000)
      (by decide) (by decide)⟩

/-! ### C10 -/

/-- C10 (confirmed): for every tracked display and every requested
resolution with width below 800 or height below 600,
`set_display_resolution` returns failure, leaves the display collection
untouched, and issues no OS display command — whatever the OS call
would have answered. -/
theorem C10_set_display_resolution_rejects_low (dm : DMState) (name : String)
    (res : Int × Int) (cmdOk : Bool)
    (hd : (alistLookup name dm.displays).isSome)
    (hlow : res.1 < 800 ∨ res.2 < 600) :
    set_display_resolution dm name res cmdOk = (false, dm, []) := by
  obtain ⟨d, hd⟩ := Option.isSome_iff_exists.mp hd
  have h1 : (res.1 < 800 || res.2 < 600) = true := by
    rcases hlow with h | h <;> simp [h]
  simp [set_display_resolution, hd, h1]

/-- A concrete display manager state tracking one display. -/
def demoDMState : DMState :=
  { displays :=
      [("HDMI-1",
        { name := "HDMI-1", id := "HDMI-1", resolution := (1920, 1080),
          refresh_rate := 60, is_primary := true, is_active := true,
          hdmi_port := some "hdmi1" })],
    primary_display := some "HDMI-1" }

/-- C10 witness: requesting 640×480 on the tracked display. -/
theorem C10_witness :
    (alistLookup "HDMI-1" demoDMState.displays).isSome ∧
    (((640 : Int), (480 : Int)).1 < 800 ∨ ((640 : Int), (480 : Int)).2 < 600) ∧
    set_display_resolution demoDMState "HDMI-1" (640, 480) true =
      (false, demoDMState, []) :=
  ⟨by decide, by decide,
    C10_set_display_resolution_rejects_low demoDMState "HDMI-1" (640, 480) true
      (by decide) (by decide)⟩

/-! ### C4 -/

/-- Modelled from the spec's words, for comparison only: rounding
`x / g` to the nearest integer with exact halves away from zero (what
the claim asserts the snap step does). -/
def round_half_away_div (x g : Int) : Int :=
  let q := x.fdiv g
  let r := x - q * g
  if 2 * r < g then q
  else if g < 2 * r then q + 1
  else if 0 ≤ q then q + 1 else q

/-- Arithmetic facts about one snapped coordinate: it is a multiple of
the grid size, within half a grid size of the input, and an exact half
resolves to an even multiple (Python's banker rounding). -/
theorem py_round_div_grid_spec (x : Int) :
    py_round_div x grid_size * grid_size % grid_size = 0 ∧
    -grid_size ≤ 2 * (py_round_div x grid_size * grid_size - x) ∧
    2 * (py_round_div x grid_size * grid_size - x) ≤ grid_size ∧
    ((2 * (py_round_div x grid_size * grid_size - x) = grid_size ∨
        2 * (py_round_div x grid_size * grid_size - x) = -grid_size) →
      py_round_div x grid_size * grid_size / grid_size % 2 = 0) := by
  have hfd : x.fdiv (50 : Int) = x / 50 := Int.fdiv_eq_ediv x (by norm_num)
  simp only [py_round_div, grid_size, hfd]
  split_ifs <;> omega

/-- C4 (amended): with snap-to-grid enabled, every position produced by
`optimize_layout` is obtained from the pre-snap position (grid layout
with constraints applied) coordinatewise by Python rounding of
`coordinate / gridSize` scaled back: each snapped coordinate is a
multiple of the grid size within half a grid size of the pre-snap
coordinate, and exact halves resolve to the even multiple (round half
to even), not away from zero. -/
theorem C4_optimize_layout_snaps_half_even (ws : List Window) (d : Int × Int)
    (c : Option Constraints) (wid : Nat) (p s : Int × Int)
    (hmem : (wid, (p, s)) ∈ optimize_layout ws d c) :
    ∃ q, (wid, (q, s)) ∈ pre_snap_layout ws d c ∧
      p.1 = py_round_div q.1 grid_size * grid_size ∧
      p.2 = py_round_div q.2 grid_size * grid_size ∧
      p.1 % grid_size = 0 ∧ p.2 % grid_size = 0 ∧
      -grid_size ≤ 2 * (p.1 - q.1) ∧ 2 * (p.1 - q.1) ≤ grid_size ∧
      -grid_size ≤ 2 * (p.2 - q.2) ∧ 2 * (p.2 - q.2) ≤ grid_size ∧
      ((2 * (p.1 - q.1) = grid_size ∨ 2 * (p.1 - q.1) = -grid_size) →
        p.1 / grid_size % 2 = 0) ∧
      ((2 * (p.2 - q.2) = grid_size ∨ 2 * (p.2 - q.2) = -grid_size) →
        p.2 / grid_size % 2 = 0) := by
  have hopt : optimize_layout ws d c = snap_to_grid (pre_snap_layout ws d c) := by
    simp [optimize_layout, snap_to_grid_enabled]
  rw [hopt, snap_to_grid] at hmem
  obtain ⟨e, he, heq⟩ := List.mem_map.mp hmem
  have h1 : e.1 = wid := congrArg Prod.fst heq
  have hps := congrArg Prod.snd heq
  have hp : (py_round_div e.2.1.1 grid_size * grid_size,
      py_round_div e.2.1.2 grid_size * grid_size) = p := congrArg Prod.fst hps
  have hs : e.2.2 = s := congrArg Prod.snd hps
  subst h1 hs hp
  obtain ⟨ha1, ha2, ha3, ha4⟩ := py_round_div_grid_spec e.2.1.1
  obtain ⟨hb1, hb2, hb3, hb4⟩ := py_round_div_grid_spec e.2.1.2
  exact ⟨e.2.1, by simpa using he, rfl, rfl, ha1, hb1, ha2, ha3, hb2, hb3, ha4, hb4⟩

/-- C4 counterexample to the claim as stated: one window on a 1920×1080
display with an accepted preferred position (25, 25).  The pre-snap
position is (25, 25); Python's `round(25 / 50) = 0` (half to even), so
the snapped position is (0, 0), whereas rounding half away from zero
would give (50, 50). -/
theorem C4_counterexample :
    optimize_layout [demoWindow 0] (1920, 1080)
        (some { preferred_positions := [(0, ((25, 25), (200, 150)))] }) =
      [(0, ((0, 0), (200, 150)))] ∧
    pre_snap_layout [demoWindow 0] (1920, 1080)
        (some { preferred_positions := [(0, ((25, 25), (200, 150)))] }) =
      [(0, ((25, 25), (200, 150)))] ∧
    round_half_away_div 25 grid_size * grid_size = 50 ∧
    (0 : Int) ≠ 50 := by
  refine ⟨by decide, by decide, by decide, by decide⟩

/-- C4 witness: the single entry of the unconstrained optimized layout
of one window on a 1920×1080 display. -/
theorem C4_witness :
    ((0 : Nat), (((0 : Int), (0 : Int)), ((1900 : Int), (1060 : Int)))) ∈
      optimize_layout [demoWindow 0] (1920, 1080) none ∧
    (∃ q, ((0 : Nat), (q, ((1900 : Int), (1060 : Int)))) ∈
        pre_snap_layout [demoWindow 0] (1920, 1080) none ∧
      (0 : Int) = py_round_div q.1 grid_size * grid_size ∧
      (0 : Int) = py_round_div q.2 grid_size * grid_size ∧
      (0 : Int) % grid_size = 0 ∧ (0 : Int) % grid_size = 0 ∧
      -grid_size ≤ 2 * (0 - q.1) ∧ 2 * (0 - q.1) ≤ grid_size ∧
      -grid_size ≤ 2 * (0 - q.2) ∧ 2 * (0 - q.2) ≤ grid_size ∧
      ((2 * (0 - q.1) = grid_size ∨ 2 * (0 - q.1) = -grid_size) →
        (0 : Int) / grid_size % 2 = 0) ∧
      ((2 * (0 - q.2) = grid_size ∨ 2 * (0 - q.2) = -grid_size) →
        (0 : Int) / grid_size % 2 = 0)) :=
  ⟨by decide,
    C4_optimize_layout_snaps_half_even [demoWindow 0] (1920, 1080) none 0
      (0, 0) (1900, 1060) (by decide)⟩

/-! ### C6 -/

/-- `arrange_windows` reports success on every input in the embedded
model (the source returns `False` only from its exception handler). -/
theorem arrange_windows_fst (st : WMState) (algorithm : String) :
    (arrange_windows st algorithm).1 = true := by
  unfold arrange_windows
  split <;> rfl

/-- C6 (confirmed): an unrecognized algorithm name makes
`arrange_windows` succeed with exactly the state `arrange_windows`
produces for "grid" from the same starting state. -/
theorem C6_arrange_unknown_is_grid (st : WMState) (algorithm : String)
    (h1 : algorithm ≠ "grid") (h2 : algorithm ≠ "tile")
    (h3 : algorithm ≠ "cascade") (h4 : algorithm ≠ "custom") :
    arrange_windows st algorithm = arrange_windows st "grid" ∧
    (arrange_windows st algorithm).1 = true := by
  have hcl : ∀ ws d, calculate_layout ws d algorithm = calculate_layout ws d "grid" := by
    intro ws d
    simp [calculate_layout, h1, h2, h3, h4]
  refine ⟨?_, arrange_windows_fst st algorithm⟩
  unfold arrange_windows
  simp only [hcl]

/-- C6 witness: arranging the one-window demo state with the literal
algorithm name "unknown". -/
theorem C6_witness :
    ("unknown" ≠ "grid" ∧ "unknown" ≠ "tile" ∧ "unknown" ≠ "cascade" ∧
      "unknown" ≠ "custom") ∧
    (arrange_windows demoWMState "unknown" = arrange_windows demoWMState "grid" ∧
      (arrange_windows demoWMState "unknown").1 = true) :=
  ⟨by decide,
    C6_arrange_unknown_is_grid demoWMState "unknown" (by decide) (by decide)
      (by decide) (by decide)⟩

/-! ### C8: the id counter along operation traces -/

theorem set_window_geometry_counter (st : WMState) (id : Nat) (p s : Int × Int) :
    (set_window_geometry st id p s).window_counter = st.window_counter := by
  unfold set_window_geometry
  split <;> rfl

theorem set_window_position_counter (st : WMState) (id : Nat) (p : Int × Int) :
    (set_window_position st id p).2.window_counter = st.window_counter := by
  unfold set_window_position
  split
  · rfl
  · simp [set_window_geometry_counter]

theorem set_window_size_counter (st : WMState) (id : Nat) (s : Int × Int) :
    (set_window_size st id s).2.window_counter = st.window_counter := by
  unfold set_window_size
  split
  · rfl
  · simp [set_window_geometry_counter]

theorem set_window_state_counter (st : WMState) (id : Nat) (s : WindowState) :
    (set_window_state st id s).2.window_counter = st.window_counter := by
  unfold set_window_state
  split <;> rfl

theorem close_window_counter (st : WMState) (id : Nat) (env : TermOutcome) :
    (close_window st id env).2.window_counter = st.window_counter := by
  unfold close_window
  split <;> rfl

theorem foldl_window_counter (f : WMState → Nat × ((Int × Int) × (Int × Int)) → WMState)
    (hf : ∀ s e, (f s e).window_counter = s.window_counter) :
    ∀ (l : Layout) (st : WMState), (l.foldl f st).window_counter = st.window_counter := by
  intro l
  induction l with
  | nil => intro st; rfl
  | cons e l ih => intro st; rw [List.foldl_cons, ih, hf]

theorem arrange_windows_counter (st : WMState) (algorithm : String) :
    (arrange_windows st algorithm).2.window_counter = st.window_counter := by
  unfold arrange_windows
  split
  · rfl
  · exact foldl_window_counter _
      (fun s e => by
        split
        · simp [set_window_size_counter, set_window_position_counter]
        · rfl)
      _ _

theorem create_browser_window_ok_counter (st : WMState) (url : String)
    (pos size : Option (Int × Int)) (browser : Option String) (pid : Nat)
    (pe ok : Bool) (w : Window) (s' : WMState)
    (h : create_browser_window st url pos size browser pid pe ok = .ok (w, s')) :
    s'.window_counter = st.window_counter + 1 := by
  simp only [create_browser_window] at h
  cases hl : launch_browser st.launcher (browser.getD DEFAULT_BROWSER) url [] pid pe ok with
  | error e => rw [hl] at h; simp at h
  | ok pr =>
    obtain ⟨p, launcher'⟩ := pr
    rw [hl] at h
    simp only [Except.ok.injEq, Prod.mk.injEq] at h
    rw [← h.2]
    simp [set_window_geometry_counter]

theorem create_application_window_ok_counter (st : WMState) (command : String)
    (pos size : Option (Int × Int)) (args : List String) (pid : Nat)
    (ok : Bool) (w : Window) (s' : WMState)
    (h : create_application_window st command pos size args pid ok = .ok (w, s')) :
    s'.window_counter = st.window_counter + 1 := by
  simp only [create_application_window] at h
  cases hl : launch_application st.launcher command args pid ok with
  | error e => rw [hl] at h; simp at h
  | ok pr =>
    obtain ⟨p, launcher'⟩ := pr
    rw [hl] at h
    simp only [Except.ok.injEq, Prod.mk.injEq] at h
    rw [← h.2]
    simp [set_window_geometry_counter]

/-- Each operation advances the id counter by exactly the number of ids
it assigns. -/
theorem applyOp_counter (st : WMState) (op : Op) :
    (applyOp st op).window_counter = st.window_counter + (assignedByOp st op).length := by
  cases op with
  | createBrowser url pos size browser pid pe ok =>
    simp only [applyOp, assignedByOp]
    cases h : create_browser_window st url pos size browser pid pe ok with
    | error e => simp
    | ok pr =>
      obtain ⟨w, s'⟩ := pr
      simpa using create_browser_window_ok_counter st url pos size browser pid pe ok w s' h
  | createApp command pos size args pid ok =>
    simp only [applyOp, assignedByOp]
    cases h : create_application_window st command pos size args pid ok with
    | error e => simp
    | ok pr =>
      obtain ⟨w, s'⟩ := pr
      simpa using create_application_window_ok_counter st command pos size args pid ok w s' h
  | closeWin id env => simpa [applyOp, assignedByOp] using close_window_counter st id env
  | setPos id p => simpa [applyOp, assignedByOp] using set_window_position_counter st id p
  | setSize id s => simpa [applyOp, assignedByOp] using set_window_size_counter st id s
  | setWinState id s =>
    simpa [applyOp, assignedByOp] using set_window_state_counter st id s
  | arrange algorithm =>
    simpa [applyOp, assignedByOp] using arrange_windows_counter st algorithm

/-- An operation assigns no id, or exactly the current counter value. -/
theorem assignedByOp_nil_or_counter (st : WMState) (op : Op) :
    assignedByOp st op = [] ∨ assignedByOp st op = [st.window_counter] := by
  cases op with
  | createBrowser url pos size browser pid pe ok =>
    simp only [assignedByOp]
    cases h : create_browser_window st url pos size browser pid pe ok <;> simp
  | createApp command pos size args pid ok =>
    simp only [assignedByOp]
    cases h : create_application_window st command pos size args pid ok <;> simp
  | closeWin id env => left; rfl
  | setPos id p => left; rfl
  | setSize id s => left; rfl
  | setWinState id s => left; rfl
  | arrange algorithm => left; rfl

theorem applyOps_counter_mono (ops : List Op) :
    ∀ st : WMState, st.window_counter ≤ (applyOps st ops).window_counter := by
  induction ops with
  | nil => intro st; exact le_refl _
  | cons op rest ih =>
    intro st
    have h1 : st.window_counter ≤ (applyOp st op).window_counter := by
      rw [applyOp_counter]; omega
    exact le_trans h1 (ih (applyOp st op))

/-- Every id assigned along a trace is at least the starting counter and
strictly below the final counter, and the assigned ids are strictly
increasing. -/
theorem assignedIds_bounds_pairwise (ops : List Op) :
    ∀ st : WMState,
      (∀ i ∈ assignedIds st ops,
        st.window_counter ≤ i ∧ i < (applyOps st ops).window_counter) ∧
      (assignedIds st ops).Pairwise (· < ·) := by
  induction ops with
  | nil => intro st; exact ⟨by simp [assignedIds], by simp [assignedIds]⟩
  | cons op rest ih =>
    intro st
    have hmono := applyOps_counter_mono rest (applyOp st op)
    have hcnt := applyOp_counter st op
    obtain ⟨ihb, ihp⟩ := ih (applyOp st op)
    have hfinal :
        (applyOps st (op :: rest)).window_counter =
          (applyOps (applyOp st op) rest).window_counter := rfl
    rcases assignedByOp_nil_or_counter st op with hA | hA
    · constructor
      · intro i hi
        rw [assignedIds, hA, List.nil_append] at hi
        obtain ⟨h1, h2⟩ := ihb i hi
        rw [hA] at hcnt
        simp at hcnt
        refine ⟨?_, ?_⟩
        · omega
        · rw [hfinal]; exact h2
      · rw [assignedIds, hA, List.nil_append]
        exact ihp
    · have hlen : (assignedByOp st op).length = 1 := by rw [hA]; rfl
      rw [hlen] at hcnt
      constructor
      · intro i hi
        rw [assignedIds, hA] at hi
        rcases List.mem_append.mp hi with hL | hR
        · have : i = st.window_counter := by simpa using hL
          subst this
          refine ⟨le_refl _, ?_⟩
          rw [hfinal]
          omega
        · obtain ⟨h1, h2⟩ := ihb i hR
          refine ⟨by omega, ?_⟩
          rw [hfinal]; exact h2
      · rw [assignedIds, hA]
        apply List.pairwise_append.mpr
        refine ⟨List.pairwise_singleton _ _, ihp, ?_⟩
        intro a ha b hb
        have ha' : a = st.window_counter := by simpa using ha
        have hb' := (ihb b hb).1
        omega

/-- C8 (confirmed): starting from a fresh Window Manager, the ids
assigned along any sequence of registry operations form a strictly
increasing list — in particular no id is ever assigned twice, even after
the window holding it is closed — and every assigned id is strictly
below the registry's final id counter. -/
theorem C8_window_ids_never_reused (q : XrandrResult) (ops : List Op) :
    (assignedIds (initWindowManager q) ops).Pairwise (· < ·) ∧
    (assignedIds (initWindowManager q) ops).Nodup ∧
    ∀ i ∈ assignedIds (initWindowManager q) ops,
      i < (applyOps (initWindowManager q) ops).window_counter := by
  obtain ⟨hb, hp⟩ := assignedIds_bounds_pairwise ops (initWindowManager q)
  exact ⟨hp, hp.imp (fun h => Nat.ne_of_lt h), fun i hi => (hb i hi).2⟩

end SM
